import Mathlib

/-!
Shallow embedding of the kenlord-sms Flask application (src/app.py,
src/models.py) for checking its natural-language specification.

The persistent store (SQLite via Flask-SQLAlchemy) is modelled as explicit
lists of rows.  Each route handler becomes a pure function from the store
and its request inputs to an outcome (flash + redirect, hard 404, or an
uncaught exception escaping the handler) and the updated store.  Framework
facts that the handlers rely on are modelled where they decide behaviour:

* `request.form.get(k)` returns `None` when the field is missing, so form
  fields are `Option String`;
* `models.py` declares `Contact.name`, `Contact.phone` and
  `Contact.category_id` as `nullable=False`; SQLite always enforces NOT
  NULL, so a flush that writes `None` into one of these columns raises
  `IntegrityError`;
* the `Category.contacts` relationship (models.py line 12) configures no
  delete cascade, so `db.session.delete(category)` makes SQLAlchemy nullify
  `category_id` on every owned Contact at flush — which violates the NOT
  NULL constraint above whenever the category owns contacts;
* `pandas.read_excel` turns an empty cell into NaN; `str(NaN)` is `"nan"`.
  A parsed sheet is modelled as its column-presence flags plus rows of
  optional cells (`none` = empty cell / NaN).

The password hash check (werkzeug) and the vendor HTTP endpoint (requests)
are external collaborators and are passed in as function parameters.
-/

namespace KenlordSms

/-- Value `upload_contacts`/`add_contact` pass for the `Contact.name`
column.  `null` models Python `None` (bound as SQL NULL), `nanF` models
the pandas NaN float that `upload_contacts` passes through for an empty
Name cell — SQLite has no NaN and converts it to NULL at bind — and
`strV` an ordinary string.  Both `null` and `nanF` therefore violate the
NOT NULL constraint on `contact.name` at flush. -/
inductive NameVal where
  | null
  | nanF
  | strV (s : String)
deriving Repr, DecidableEq

/-- Row of the `category` table (models.py lines 9-12). -/
structure Category where
  id : Nat
  name : String
deriving Repr, DecidableEq

/-- Row of the `contact` table (models.py lines 18-22). -/
structure Contact where
  id : Nat
  name : NameVal
  phone : String
  category_id : Nat
deriving Repr, DecidableEq

/-- Row of the `user` table (models.py lines 26-29). -/
structure User where
  id : Nat
  username : String
  password_hash : String
deriving Repr, DecidableEq

/-- The database tables the category/contact handlers touch. -/
structure Store where
  categories : List Category
  contacts : List Contact
deriving Repr, DecidableEq

/-- A flashed status message with its bootstrap category. -/
inductive Flash where
  | success (msg : String)
  | danger (msg : String)
  | warning (msg : String)
  | info (msg : String)
deriving Repr, DecidableEq

/-- What a handler invocation produces towards the client: a flash followed
by a redirect, a hard 404 (`get_or_404`), or an exception escaping the
handler (Flask then returns a 500). -/
inductive Outcome where
  | flashed (f : Flash)
  | notFound404
  | uncaughtExc (e : String)
deriving Repr, DecidableEq

/-- Python's test `x.strip() == ""` (and `not x.strip()`): stripping
whitespace from both ends leaves the empty string exactly when every
character of `x` is whitespace. -/
def isBlank (x : String) : Bool :=
  x.data.all Char.isWhitespace

/-- The handler `add_category` (app.py lines 55-70): reject blank or
whitespace-only names, then reject an exact duplicate name, otherwise
insert.  `nextId` models the autoincrement primary key. -/
def addCategory (s : Store) (nextId : Nat) (name : String) : Flash × Store :=
  if isBlank name then
    (.danger "Category name cannot be empty!", s)
  else if s.categories.any (fun c => c.name == name) then
    (.warning "Category already exists!", s)
  else
    (.success "Category added successfully!",
     { s with categories := s.categories ++ [{ id := nextId, name := name }] })

/-- The handler `delete_category` (app.py lines 73-83).  `Category.query.get(id)`
finds the row or returns `None`; `None` flashes "Category not found!".
`db.session.delete(category)` followed by `commit` runs SQLAlchemy's default
delete handling for the `contacts` relationship (models.py line 12 configures
no delete cascade): every owned Contact gets `category_id` set to NULL at
flush.  `contact.category_id` is NOT NULL (models.py line 22), so the commit
raises `IntegrityError` whenever the category owns at least one contact; the
handler has no try/except, so the exception escapes and the transaction is
not committed. -/
def deleteCategory (s : Store) (id : Nat) : Outcome × Store :=
  match s.categories.find? (fun c => c.id == id) with
  | none => (.flashed (.danger "Category not found!"), s)
  | some _ =>
    if s.contacts.any (fun ct => ct.category_id == id) then
      (.uncaughtExc "IntegrityError", s)
    else
      (.flashed (.success "Category deleted successfully!"),
       { s with categories := s.categories.filter (fun c => !(c.id == id)) })

/-- One row of a parsed spreadsheet: the Name and Phone cells, `none`
modelling an empty cell (pandas NaN). -/
structure Row where
  nameCell : Option String
  phoneCell : Option String
deriving Repr, DecidableEq

/-- A dataframe produced by `pd.read_excel`: which of the two columns the
file has, and its rows. -/
structure Sheet where
  hasName : Bool
  hasPhone : Bool
  rows : List Row
deriving Repr, DecidableEq

/-- Python `str(cell)` for a Phone cell: an empty cell is pandas NaN and
stringifies to "nan". -/
def pyStr : Option String → String
  | none => "nan"
  | some v => v

/-- Value `upload_contacts` passes as the contact name for one row
(app.py line 113): the raw Name cell when the sheet has a Name column
(NaN for an empty cell — not NULL), and Python `None` otherwise. -/
def rowName (hasName : Bool) (cell : Option String) : NameVal :=
  if hasName then
    match cell with
    | none => .nanF
    | some v => .strV v
  else .null

/-- The contacts staged by the loop of `upload_contacts` (app.py lines
110-115) when the sheet has a Phone column: one `db.session.add` per row —
the guard `if 'Phone' in df.columns` does not depend on the row, so no row
is ever skipped.  Ids model the autoincrement key. -/
def stagedContacts (nextId cid : Nat) (hasName : Bool) : List Row → List Contact
  | [] => []
  | r :: rs =>
      { id := nextId, name := rowName hasName r.nameCell,
        phone := pyStr r.phoneCell, category_id := cid }
        :: stagedContacts (nextId + 1) cid hasName rs

/-- SQL NULL check at bind time for a staged name value: Python `None`
binds as NULL, and SQLite converts a float NaN to NULL as well, so both
violate the NOT NULL constraint on `contact.name` (models.py line 20). -/
def bindsNull : NameVal → Bool
  | .null => true
  | .nanF => true
  | .strV _ => false

/-- The handler `upload_contacts` (app.py lines 94-121) after the file has
been saved and successfully parsed into `sheet`.  The single guard in the
loop is the row-independent `if 'Phone' in df.columns`, so with a Phone
column every row is staged; `db.session.commit()` then raises
`IntegrityError` if any staged contact's name binds as NULL — a Python
`None` (no Name column) or a pandas NaN (empty Name cell), see
`bindsNull` — which the broad `except Exception` turns into a danger
flash with the error text, leaving the store unchanged. -/
def uploadContacts (s : Store) (nextId category_id : Nat) (sheet : Sheet) :
    Outcome × Store :=
  match s.categories.find? (fun c => c.id == category_id) with
  | none => (.notFound404, s)
  | some cat =>
    let staged := if sheet.hasPhone then
        stagedContacts nextId cat.id sheet.hasName sheet.rows
      else []
    if staged.any (fun ct => bindsNull ct.name) then
      (.flashed (.danger "Error uploading contacts: IntegrityError"), s)
    else
      (.flashed (.success "Contacts uploaded successfully!"),
       { s with contacts := s.contacts ++ staged })

/-- The handler `add_contact` (app.py lines 124-139).  `get_or_404` on the
category; `request.form.get` yields `None` for a missing field;
`phone.strip()` on `None` raises `AttributeError` (uncaught); a blank phone
flashes an error; otherwise the Contact is inserted — but a `None` name
violates the NOT NULL constraint on `contact.name` at commit, raising
`IntegrityError` (uncaught). -/
def addContact (s : Store) (nextId category_id : Nat)
    (name phone : Option String) : Outcome × Store :=
  match s.categories.find? (fun c => c.id == category_id) with
  | none => (.notFound404, s)
  | some cat =>
    match phone with
    | none => (.uncaughtExc "AttributeError", s)
    | some p =>
      if isBlank p then (.flashed (.danger "Phone number is required!"), s)
      else
        match name with
        | none => (.uncaughtExc "IntegrityError", s)
        | some n =>
          (.flashed (.success "Contact added successfully!"),
           { s with contacts := s.contacts ++
               [{ id := nextId, name := .strV n, phone := p, category_id := cat.id }] })

/-- The handler `edit_contact` (app.py lines 142-150).  `get_or_404` on the
contact id; both fields are overwritten from `request.form.get` with no
validation and the row committed; a `None` (missing) field would violate
the NOT NULL constraints at commit. -/
def editContact (s : Store) (contact_id : Nat) (name phone : Option String) :
    Outcome × Store :=
  match s.contacts.find? (fun c => c.id == contact_id) with
  | none => (.notFound404, s)
  | some _ =>
    match name, phone with
    | some n, some p =>
      (.flashed (.success "Contact updated successfully!"),
       { s with contacts := s.contacts.map (fun c =>
           if c.id == contact_id then { c with name := .strV n, phone := p }
           else c) })
    | _, _ => (.uncaughtExc "IntegrityError", s)

/-- The JSON payload posted to the vendor bulk endpoint (app.py lines
183-188); `key` and `sender` come from `os.getenv`, hence optional. -/
structure SmsPayload where
  key : Option String
  recipient : List String
  sender : Option String
  message : String
deriving Repr, DecidableEq

/-- What `requests.post` produces: an HTTP response with status and body
text, or a transport-level exception. -/
inductive VendorReply where
  | http (status : Nat) (text : String)
  | transportFault (e : String)
deriving Repr, DecidableEq

/-- The list comprehension `[c.phone for c in category.contacts]`
(app.py line 177): phones of the contacts owned by the category. -/
def phonesOf (s : Store) (cid : Nat) : List String :=
  (s.contacts.filter (fun ct => ct.category_id == cid)).map (fun ct => ct.phone)

/-- The try/except around the vendor call (app.py lines 190-197): status
200 flashes success, any other status flashes the response body, a
transport fault is caught and its text flashed. -/
def vendorOutcome : VendorReply → Flash
  | .http status text =>
    if status == 200 then .success "Messages sent successfully!"
    else .danger ("Failed to send SMS: " ++ text)
  | .transportFault e => .danger ("Error sending SMS: " ++ e)

/-- The handler `send_sms` (app.py lines 165-199).  `vendor` stands for the
single `requests.post` to the mnotify endpoint; the returned list holds
every payload posted during the request (so its length counts the outbound
calls). -/
def sendSms (s : Store) (category_id : Nat) (message : Option String)
    (api_key sender_id : Option String) (vendor : SmsPayload → VendorReply) :
    Outcome × List SmsPayload :=
  match s.categories.find? (fun c => c.id == category_id) with
  | none => (.notFound404, [])
  | some cat =>
    match message with
    | none => (.flashed (.danger "Message cannot be empty!"), [])
    | some m =>
      if isBlank m then (.flashed (.danger "Message cannot be empty!"), [])
      else
        if (phonesOf s cat.id).isEmpty then
          (.flashed (.danger "No contacts found in this category!"), [])
        else
          (.flashed (vendorOutcome (vendor
             { key := api_key, recipient := phonesOf s cat.id,
               sender := sender_id, message := m })),
           [{ key := api_key, recipient := phonesOf s cat.id,
              sender := sender_id, message := m }])

/-- Outcome of the `login` POST handler (app.py lines 203-216):
`login_user(user)` plus the redirect to the dashboard, or re-rendering
login.html after an error flash with no session established. -/
inductive LoginResult where
  | redirectDashboard (user_id : Nat)
  | renderLoginError
deriving Repr, DecidableEq

/-- The POST branch of `login` (app.py lines 203-216).
`check_password_hash` stands for werkzeug's verifier applied to the stored
`password_hash` and the submitted password. -/
def login (users : List User) (username password : String)
    (check_password_hash : String → String → Bool) : LoginResult :=
  match users.find? (fun u => u.username == username) with
  | some u =>
    if check_password_hash u.password_hash password then .redirectDashboard u.id
    else .renderLoginError
  | none => .renderLoginError

end KenlordSms

namespace KenlordSms

/-- C6: a blank/whitespace-only name, or a name exactly equal to an
existing Category's name, leaves the store unchanged and flashes an
error/warning; any other name inserts exactly one new Category with that
name and flashes success. -/
theorem add_category_validation (s : Store) (nextId : Nat) (name : String) :
    (isBlank name = true →
        addCategory s nextId name = (.danger "Category name cannot be empty!", s))
    ∧ (isBlank name = false → (∃ c ∈ s.categories, c.name = name) →
        addCategory s nextId name = (.warning "Category already exists!", s))
    ∧ (isBlank name = false → (∀ c ∈ s.categories, c.name ≠ name) →
        addCategory s nextId name = (.success "Category added successfully!",
          { s with categories := s.categories ++ [{ id := nextId, name := name }] })) := by
  refine ⟨fun hb => ?_, fun hb hdup => ?_, fun hb hnew => ?_⟩
  · simp [addCategory, hb]
  · obtain ⟨c, hc, hcname⟩ := hdup
    have hany : s.categories.any (fun c => c.name == name) = true := by
      exact List.any_eq_true.mpr ⟨c, hc, by simp [hcname]⟩
    simp [addCategory, hb, hany]
  · have hany : s.categories.any (fun c => c.name == name) = false := by
      simp only [List.any_eq_false]
      intro c hc
      simpa using hnew c hc
    simp [addCategory, hb, hany]

/-- Witness for `add_category_validation`: on a store holding one category
named Staff, adding Staff again is rejected with the store unchanged, at a
concrete input. -/
theorem add_category_validation_witness :
    addCategory ⟨[⟨1, "Staff"⟩], []⟩ 2 "Staff"
      = (.warning "Category already exists!", ⟨[⟨1, "Staff"⟩], []⟩) :=
  (add_category_validation ⟨[⟨1, "Staff"⟩], []⟩ 2 "Staff").2.1 (by decide)
    ⟨⟨1, "Staff"⟩, by decide, rfl⟩

/-- C1 (code bug): with the relationship configured without a delete
cascade and `contact.category_id` NOT NULL, deleting a category that owns a
contact raises `IntegrityError` out of the handler instead of cascading;
the category and its contact both remain.  Deleting an absent id still
flashes "not found" with the store unchanged. -/
theorem delete_category_missing_cascade :
    deleteCategory ⟨[⟨1, "Parents"⟩], [⟨1, .strV "Ama", "0241", 1⟩]⟩ 1
      = (.uncaughtExc "IntegrityError",
         ⟨[⟨1, "Parents"⟩], [⟨1, .strV "Ama", "0241", 1⟩]⟩)
    ∧ deleteCategory ⟨[⟨1, "Parents"⟩], [⟨1, .strV "Ama", "0241", 1⟩]⟩ 2
      = (.flashed (.danger "Category not found!"),
         ⟨[⟨1, "Parents"⟩], [⟨1, .strV "Ama", "0241", 1⟩]⟩) := by
  exact ⟨rfl, rfl⟩

/-- C2 counterexample: uploading the three-row sheet
Name=A/Phone=123, Name=B/Phone=empty, Name=empty/Phone=456 against an
existing category creates 0 contacts, not the 2 the claim states: no row
is skipped (the loop's guard is column-level), so the third row's NaN name
is staged, binds as NULL against the NOT NULL name column, and the whole
commit fails into an error flash. -/
theorem upload_three_row_example_creates_none :
    uploadContacts ⟨[⟨1, "Parents"⟩], []⟩ 1 1
        ⟨true, true, [⟨some "A", some "123"⟩, ⟨some "B", none⟩,
          ⟨none, some "456"⟩]⟩
      = (.flashed (.danger "Error uploading contacts: IntegrityError"),
         ⟨[⟨1, "Parents"⟩], []⟩)
    ∧ ¬ ((uploadContacts ⟨[⟨1, "Parents"⟩], []⟩ 1 1
        ⟨true, true, [⟨some "A", some "123"⟩, ⟨some "B", none⟩,
          ⟨none, some "456"⟩]⟩).2.contacts.length = 2) := by
  exact ⟨rfl, by decide⟩

theorem stagedContacts_length (cid : Nat) (hasName : Bool) :
    ∀ (rows : List Row) (nextId : Nat),
      (stagedContacts nextId cid hasName rows).length = rows.length := by
  intro rows
  induction rows with
  | nil => intro nextId; rfl
  | cons r rs ih => intro nextId; simp [stagedContacts, ih]

theorem stagedContacts_phones (cid : Nat) (hasName : Bool) :
    ∀ (rows : List Row) (nextId : Nat),
      (stagedContacts nextId cid hasName rows).map (fun ct => ct.phone)
        = rows.map (fun r => pyStr r.phoneCell) := by
  intro rows
  induction rows with
  | nil => intro nextId; rfl
  | cons r rs ih => intro nextId; simp [stagedContacts, ih]

theorem stagedContacts_category (cid : Nat) (hasName : Bool) :
    ∀ (rows : List Row) (nextId : Nat),
      ∀ ct ∈ stagedContacts nextId cid hasName rows, ct.category_id = cid := by
  intro rows
  induction rows with
  | nil => intro nextId ct h; cases h
  | cons r rs ih =>
    intro nextId ct h
    rcases List.mem_cons.mp h with h | h
    · rw [h]
    · exact ih (nextId + 1) ct h

theorem stagedContacts_all_named (cid : Nat) :
    ∀ (rows : List Row) (nextId : Nat),
      (∀ r ∈ rows, r.nameCell ≠ none) →
      (stagedContacts nextId cid true rows).any
        (fun ct => bindsNull ct.name) = false := by
  intro rows
  induction rows with
  | nil => intro nextId _; rfl
  | cons r rs ih =>
    intro nextId hnamed
    have hrest := ih (nextId + 1) (fun x hx => hnamed x (List.mem_cons_of_mem r hx))
    simp only [stagedContacts, List.any_cons, hrest, Bool.or_false]
    cases h : r.nameCell with
    | none => exact absurd h (hnamed r (List.mem_cons_self r rs))
    | some v => simp [rowName, h, bindsNull]

theorem stagedContacts_name_mem (cid : Nat) (hasName : Bool) :
    ∀ (rows : List Row) (nextId : Nat) (r : Row), r ∈ rows →
      ∃ ct ∈ stagedContacts nextId cid hasName rows,
        ct.name = rowName hasName r.nameCell := by
  intro rows
  induction rows with
  | nil => intro nextId r hr; cases hr
  | cons r₀ rs ih =>
    intro nextId r hr
    rcases List.mem_cons.mp hr with hr₀ | hrs
    · exact ⟨_, List.mem_cons_self _ _, by rw [hr₀]⟩
    · obtain ⟨ct, hmem, hname⟩ := ih (nextId + 1) r hrs
      exact ⟨ct, List.mem_cons_of_mem _ hmem, hname⟩

/-- C2 amended: when the parsed sheet has both a Phone and a Name column
and the category exists, `upload_contacts` stages exactly one Contact per
row — no row is skipped, a blank Phone cell becoming phone "nan" — all
owned by the category; when every row carries a name the commit succeeds
with a success flash, while any empty Name cell (NaN, bound as NULL
against the NOT NULL name column) makes the whole import fail into an
error flash, creating nothing. -/
theorem upload_one_contact_per_row (s : Store) (nextId cid : Nat)
    (cat : Category) (sheet : Sheet)
    (hcat : s.categories.find? (fun c => c.id == cid) = some cat)
    (hP : sheet.hasPhone = true) (hN : sheet.hasName = true) :
    ((∀ r ∈ sheet.rows, r.nameCell ≠ none) →
      uploadContacts s nextId cid sheet
        = (.flashed (.success "Contacts uploaded successfully!"),
           { s with contacts := s.contacts
               ++ stagedContacts nextId cat.id true sheet.rows })
      ∧ (stagedContacts nextId cat.id true sheet.rows).length
          = sheet.rows.length
      ∧ (stagedContacts nextId cat.id true sheet.rows).map (fun ct => ct.phone)
          = sheet.rows.map (fun r => pyStr r.phoneCell)
      ∧ ∀ ct ∈ stagedContacts nextId cat.id true sheet.rows,
          ct.category_id = cat.id)
    ∧ ((∃ r ∈ sheet.rows, r.nameCell = none) →
      uploadContacts s nextId cid sheet
        = (.flashed (.danger "Error uploading contacts: IntegrityError"),
           s)) := by
  constructor
  · intro hnamed
    refine ⟨?_, stagedContacts_length cat.id true sheet.rows nextId,
      stagedContacts_phones cat.id true sheet.rows nextId,
      stagedContacts_category cat.id true sheet.rows nextId⟩
    rw [uploadContacts, hcat]
    simp only [hP, if_true, ← hN]
    rw [hN, stagedContacts_all_named cat.id sheet.rows nextId hnamed]
    rfl
  · rintro ⟨r, hr, hcell⟩
    obtain ⟨ct, hmem, hname⟩ :=
      stagedContacts_name_mem cat.id true sheet.rows nextId r hr
    have hany : (stagedContacts nextId cat.id true sheet.rows).any
        (fun ct => bindsNull ct.name) = true := by
      refine List.any_eq_true.mpr ⟨ct, hmem, ?_⟩
      rw [hname, hcell]
      rfl
    rw [uploadContacts, hcat]
    simp only [hP, if_true, ← hN]
    rw [hN, hany]
    rfl

/-- Witness for `upload_one_contact_per_row` on a two-row fully-named sheet:
the blank-phone row is not skipped and becomes a contact with phone "nan". -/
theorem upload_one_contact_per_row_witness :
    uploadContacts ⟨[⟨1, "Parents"⟩], []⟩ 1 1
        ⟨true, true, [⟨some "A", some "123"⟩, ⟨some "B", none⟩]⟩
      = (.flashed (.success "Contacts uploaded successfully!"),
         ⟨[⟨1, "Parents"⟩],
          [⟨1, .strV "A", "123", 1⟩, ⟨2, .strV "B", "nan", 1⟩]⟩) :=
  ((upload_one_contact_per_row ⟨[⟨1, "Parents"⟩], []⟩ 1 1 ⟨1, "Parents"⟩
      ⟨true, true, [⟨some "A", some "123"⟩, ⟨some "B", none⟩]⟩
      rfl rfl rfl).1 (by decide)).1

/-- C7 (code bug): a non-blank phone with no supplied name does not create
a Contact — `contact.name` is NOT NULL while both entry points pass `None`:
`add_contact` raises `IntegrityError` out of the handler, and a Name-less
sheet makes the whole import fail with an error flash; in both cases the
store is unchanged. -/
theorem contact_missing_name_integrity_bug :
    addContact ⟨[⟨1, "Parents"⟩], []⟩ 1 1 none (some "0241")
      = (.uncaughtExc "IntegrityError", ⟨[⟨1, "Parents"⟩], []⟩)
    ∧ uploadContacts ⟨[⟨1, "Parents"⟩], []⟩ 1 1
        ⟨false, true, [⟨none, some "0241"⟩]⟩
      = (.flashed (.danger "Error uploading contacts: IntegrityError"),
         ⟨[⟨1, "Parents"⟩], []⟩) := by
  exact ⟨rfl, rfl⟩

/-- C10: a POST to `add_contact` with no phone field at all makes
`phone.strip()` run on `None` and raise `AttributeError` out of the
handler, unlike the blank-string phone, which is answered with a
validation flash; the two outcomes differ. -/
theorem add_contact_missing_phone_crash :
    addContact ⟨[⟨1, "Parents"⟩], []⟩ 1 1 (some "Kofi") none
      = (.uncaughtExc "AttributeError", ⟨[⟨1, "Parents"⟩], []⟩)
    ∧ addContact ⟨[⟨1, "Parents"⟩], []⟩ 1 1 (some "Kofi") (some "")
      = (.flashed (.danger "Phone number is required!"), ⟨[⟨1, "Parents"⟩], []⟩)
    ∧ Outcome.uncaughtExc "AttributeError"
        ≠ Outcome.flashed (.danger "Phone number is required!") := by
  refine ⟨rfl, rfl, by decide⟩

theorem sendSms_sends (s : Store) (cid : Nat) (cat : Category) (m : String)
    (key sid : Option String) (vendor : SmsPayload → VendorReply)
    (hcat : s.categories.find? (fun c => c.id == cid) = some cat)
    (hm : isBlank m = false) (hcts : phonesOf s cid ≠ []) :
    sendSms s cid (some m) key sid vendor
      = (.flashed (vendorOutcome (vendor
          { key := key, recipient := phonesOf s cid, sender := sid,
            message := m })),
         [{ key := key, recipient := phonesOf s cid, sender := sid,
            message := m }]) := by
  have hcid : cat.id = cid := by simpa using List.find?_some hcat
  have hempty : (phonesOf s cat.id).isEmpty = false := by
    rw [hcid]
    exact List.isEmpty_eq_false.mpr hcts
  unfold sendSms
  rw [hcat]
  simp [hm, hempty, hcid, hcts]

/-- C3: for an existing category with at least one contact and a non-blank
message, `send_sms` posts exactly one bulk request, whose payload holds the
configured api key, the configured sender id, the message body, and the
phone number of every contact owned by the category. -/
theorem send_sms_single_bulk_request (s : Store) (cid : Nat) (cat : Category)
    (m : String) (key sid : Option String) (vendor : SmsPayload → VendorReply)
    (hcat : s.categories.find? (fun c => c.id == cid) = some cat)
    (hm : isBlank m = false) (hcts : phonesOf s cid ≠ []) :
    (sendSms s cid (some m) key sid vendor).2
      = [{ key := key, recipient := phonesOf s cid, sender := sid,
           message := m }] := by
  rw [sendSms_sends s cid cat m key sid vendor hcat hm hcts]

/-- Witness for `send_sms_single_bulk_request` on a one-contact store. -/
theorem send_sms_single_bulk_request_witness :
    (sendSms ⟨[⟨1, "Parents"⟩], [⟨1, .strV "Ama", "0241", 1⟩]⟩ 1 (some "Hello")
        (some "KEY") (some "SCHOOL") (fun _ => .http 200 "ok")).2
      = [{ key := some "KEY", recipient := ["0241"], sender := some "SCHOOL",
           message := "Hello" }] :=
  send_sms_single_bulk_request ⟨[⟨1, "Parents"⟩], [⟨1, .strV "Ama", "0241", 1⟩]⟩
    1 ⟨1, "Parents"⟩ "Hello" (some "KEY") (some "SCHOOL")
    (fun _ => .http 200 "ok") rfl (by decide) (by decide)

/-- C4: for an existing category owning no contacts and a non-blank
message, `send_sms` issues no vendor call at all and flashes the
"no contacts" error. -/
theorem send_sms_no_contacts_no_call (s : Store) (cid : Nat) (cat : Category)
    (m : String) (key sid : Option String) (vendor : SmsPayload → VendorReply)
    (hcat : s.categories.find? (fun c => c.id == cid) = some cat)
    (hm : isBlank m = false) (hempty : phonesOf s cid = []) :
    sendSms s cid (some m) key sid vendor
      = (.flashed (.danger "No contacts found in this category!"), []) := by
  have hcid : cat.id = cid := by simpa using List.find?_some hcat
  have h : (phonesOf s cat.id).isEmpty = true := by
    rw [hcid, hempty]
    rfl
  unfold sendSms
  rw [hcat]
  simp [hm, h]

/-- Witness for `send_sms_no_contacts_no_call` on a contact-free store. -/
theorem send_sms_no_contacts_no_call_witness :
    sendSms ⟨[⟨1, "Parents"⟩], []⟩ 1 (some "Hello") (some "KEY") (some "SCHOOL")
        (fun _ => .http 200 "ok")
      = (.flashed (.danger "No contacts found in this category!"), []) :=
  send_sms_no_contacts_no_call ⟨[⟨1, "Parents"⟩], []⟩ 1 ⟨1, "Parents"⟩ "Hello"
    (some "KEY") (some "SCHOOL") (fun _ => .http 200 "ok") rfl (by decide) rfl

/-- C5: once the vendor call is made, status 200 flashes full success, any
other status flashes a failure carrying the response body verbatim, a
transport fault is caught and flashed, and in every case the handler ends
in a flash — the vendor call never raises to the caller. -/
theorem send_sms_vendor_reply_handling (s : Store) (cid : Nat) (cat : Category)
    (m : String) (key sid : Option String) (vendor : SmsPayload → VendorReply)
    (hcat : s.categories.find? (fun c => c.id == cid) = some cat)
    (hm : isBlank m = false) (hcts : phonesOf s cid ≠ []) :
    (∀ t, vendor ⟨key, phonesOf s cid, sid, m⟩ = .http 200 t →
        (sendSms s cid (some m) key sid vendor).1
          = .flashed (.success "Messages sent successfully!"))
    ∧ (∀ st t, st ≠ 200 →
        vendor ⟨key, phonesOf s cid, sid, m⟩ = .http st t →
        (sendSms s cid (some m) key sid vendor).1
          = .flashed (.danger ("Failed to send SMS: " ++ t)))
    ∧ (∀ e, vendor ⟨key, phonesOf s cid, sid, m⟩ = .transportFault e →
        (sendSms s cid (some m) key sid vendor).1
          = .flashed (.danger ("Error sending SMS: " ++ e)))
    ∧ ∃ f, (sendSms s cid (some m) key sid vendor).1 = .flashed f := by
  have hsend := sendSms_sends s cid cat m key sid vendor hcat hm hcts
  refine ⟨fun t hv => ?_, fun st t hst hv => ?_, fun e hv => ?_, ?_⟩
  · rw [hsend]
    simp [vendorOutcome, hv]
  · rw [hsend]
    simp [vendorOutcome, hv, hst]
  · rw [hsend]
    simp [vendorOutcome, hv]
  · rw [hsend]
    exact ⟨_, rfl⟩

/-- Witness for `send_sms_vendor_reply_handling`: a 500 reply is flashed as
a failure with the body text. -/
theorem send_sms_vendor_reply_handling_witness :
    (sendSms ⟨[⟨1, "Parents"⟩], [⟨1, .strV "Ama", "0241", 1⟩]⟩ 1 (some "Hi")
        (some "KEY") (some "SCHOOL") (fun _ => .http 500 "boom")).1
      = .flashed (.danger ("Failed to send SMS: " ++ "boom")) :=
  (send_sms_vendor_reply_handling ⟨[⟨1, "Parents"⟩], [⟨1, .strV "Ama", "0241", 1⟩]⟩
      1 ⟨1, "Parents"⟩ "Hi" (some "KEY") (some "SCHOOL")
      (fun _ => .http 500 "boom") rfl (by decide) (by decide)).2.1
    500 "boom" (by decide) rfl

/-- C8: editing an existing contact overwrites its name and phone with the
supplied values (blank included, nothing validated), keeps its id and
owning category, touches no other row and no category; a nonexistent
contact id yields a 404 with the store unchanged. -/
theorem edit_contact_unconditional_overwrite (s : Store) (cid : Nat)
    (n p : String) :
    ((∃ c ∈ s.contacts, c.id = cid) →
      (editContact s cid (some n) (some p)).1
          = .flashed (.success "Contact updated successfully!")
      ∧ (editContact s cid (some n) (some p)).2.categories = s.categories
      ∧ (editContact s cid (some n) (some p)).2.contacts.length
          = s.contacts.length
      ∧ (∀ c ∈ s.contacts, c.id = cid →
          ({ c with name := .strV n, phone := p } : Contact)
            ∈ (editContact s cid (some n) (some p)).2.contacts)
      ∧ (∀ c ∈ s.contacts, c.id ≠ cid →
          c ∈ (editContact s cid (some n) (some p)).2.contacts))
    ∧ (∀ nm ph : Option String, (∀ c ∈ s.contacts, c.id ≠ cid) →
        editContact s cid nm ph = (.notFound404, s)) := by
  constructor
  · rintro ⟨c₀, hc₀, hid₀⟩
    obtain ⟨c₁, hfind⟩ : ∃ c₁, s.contacts.find? (fun c => c.id == cid) = some c₁ := by
      cases h : s.contacts.find? (fun c => c.id == cid) with
      | none =>
        exfalso
        exact absurd (by simp [hid₀]) (List.find?_eq_none.mp h c₀ hc₀)
      | some c₁ => exact ⟨c₁, rfl⟩
    have heq : editContact s cid (some n) (some p)
        = (.flashed (.success "Contact updated successfully!"),
           { s with contacts := s.contacts.map (fun c =>
               if c.id == cid then { c with name := .strV n, phone := p }
               else c) }) := by
      unfold editContact
      rw [hfind]
    rw [heq]
    refine ⟨rfl, rfl, List.length_map _ _, fun c hc hcid => ?_, fun c hc hcid => ?_⟩
    · exact List.mem_map.mpr ⟨c, hc, by simp [hcid]⟩
    · exact List.mem_map.mpr ⟨c, hc, by simp [hcid]⟩
  · intro nm ph hnone
    have hfind : s.contacts.find? (fun c => c.id == cid) = none :=
      List.find?_eq_none.mpr (fun c hc => by simp [hnone c hc])
    unfold editContact
    rw [hfind]

/-- Witness for `edit_contact_unconditional_overwrite`: editing contact 1
leaves it owned by category 1 with the new name and phone. -/
theorem edit_contact_unconditional_overwrite_witness :
    ({ id := 1, name := .strV "Akua", phone := "055", category_id := 1 } : Contact)
      ∈ (editContact ⟨[⟨1, "Parents"⟩], [⟨1, .strV "Ama", "0241", 1⟩]⟩ 1
          (some "Akua") (some "055")).2.contacts :=
  ((edit_contact_unconditional_overwrite
        ⟨[⟨1, "Parents"⟩], [⟨1, .strV "Ama", "0241", 1⟩]⟩ 1 "Akua" "055").1
      ⟨⟨1, .strV "Ama", "0241", 1⟩, by decide, rfl⟩).2.2.2.1
    ⟨1, .strV "Ama", "0241", 1⟩ (by decide) rfl

theorem login_find_user (username : String) :
    ∀ (users : List User) (u : User),
      (users.map (fun x => x.username)).Nodup → u ∈ users →
      u.username = username →
      users.find? (fun x => x.username == username) = some u := by
  intro users
  induction users with
  | nil => intro u _ hmem; cases hmem
  | cons v rest ih =>
    intro u hnodup hmem hu
    rcases List.mem_cons.mp hmem with hvu | hrest
    · subst hvu
      exact List.find?_cons_of_pos _ (by simp [hu])
    · have hsplit : (∀ x ∈ rest, ¬ x.username = v.username)
          ∧ (rest.map (fun x => x.username)).Nodup := by
        simpa using hnodup
      have hne : v.username ≠ username := by
        intro hveq
        exact hsplit.1 u hrest (by rw [hu, hveq])
      rw [List.find?_cons_of_neg _ (by simp [hne])]
      exact ih u hsplit.2 hrest hu

/-- C9: with distinct usernames in the user table, submitting the username
of a stored user with a password the hash check accepts logs that user in
and redirects to the dashboard; if every stored user either has another
username or fails the hash check (unknown user or wrong password), no
session is established and the login form is re-rendered with an error. -/
theorem login_auth (users : List User) (username password : String)
    (check_password_hash : String → String → Bool)
    (hnodup : (users.map (fun x => x.username)).Nodup) :
    (∀ u ∈ users, u.username = username →
        check_password_hash u.password_hash password = true →
        login users username password check_password_hash
          = .redirectDashboard u.id)
    ∧ ((∀ u ∈ users, u.username = username →
          check_password_hash u.password_hash password = false) →
        login users username password check_password_hash
          = .renderLoginError) := by
  constructor
  · intro u hmem hu hchk
    unfold login
    rw [login_find_user username users u hnodup hmem hu]
    simp [hchk]
  · intro hfail
    unfold login
    cases hfind : users.find? (fun x => x.username == username) with
    | none => rfl
    | some u =>
      have hmem := List.mem_of_find?_eq_some hfind
      have hu : u.username = username := by simpa using List.find?_some hfind
      simp [hfail u hmem hu]

/-- Witness for `login_auth`: correct credentials log the admin in, a wrong
password re-renders the form. -/
theorem login_auth_witness :
    login [⟨1, "admin", "h1"⟩] "admin" "12345"
        (fun h pw => h == "h1" && pw == "12345")
      = .redirectDashboard 1
    ∧ login [⟨1, "admin", "h1"⟩] "admin" "guess"
        (fun h pw => h == "h1" && pw == "12345")
      = .renderLoginError :=
  ⟨(login_auth [⟨1, "admin", "h1"⟩] "admin" "12345"
      (fun h pw => h == "h1" && pw == "12345") (by decide)).1
      ⟨1, "admin", "h1"⟩ (by decide) rfl (by decide),
   (login_auth [⟨1, "admin", "h1"⟩] "admin" "guess"
      (fun h pw => h == "h1" && pw == "12345") (by decide)).2
      (by decide)⟩

end KenlordSms
